import Mathlib

/-!
Verification development for the call-lifecycle reconciliation engine of the
Livekit demo repository.  The definitions below are a shallow embedding of
`src/backend/src/services/livekit-agent-manager.js` (class
`LiveKitAgentManager`), `src/unnamed/part_010` (class `TwilioService`),
`src/unnamed/part_009` (the Express routes, in particular the
`/twilio/call-status` webhook) and `src/unnamed/part_005` (the Angular
LiveKit service, i.e. the session bridge).

Modelling conventions:
* JavaScript `Map`s become association lists with `Map.set` / `Map.get` /
  `Map.delete` semantics (`setA`, `lookupA`, `eraseA`); keys stay unique.
* `setInterval` handles become natural-number ids.  `ManagerState.nextId`
  allocates them; `ManagerState.liveIntervals` holds the ids of intervals
  that have not been passed to `clearInterval` yet, so "a timer is still
  running" is `id ∈ liveIntervals`.
* Network calls to the carrier are modelled by explicit arguments carrying
  the outcome the carrier would return (`PollResult`, `Except` values); a
  thrown JS error becomes an error value.
* `new Date()` timestamps become `Nat` ticks passed in as a `now` argument.
* `socket.io` emissions of `call-status-update` are recorded in
  `ManagerState.emitted`; requests to `twilioService.endCall` are recorded
  in `ManagerState.carrierEndRequests` (the out-of-scope AI-agent and room
  bookkeeping of the source is not modelled; neither map is read by the
  call-lifecycle code).
-/

/-- Association-list lookup with JavaScript `Map.get` semantics. -/
def lookupA {α : Type} : List (String × α) → String → Option α
  | [], _ => none
  | (k2, v) :: rest, k => if k2 == k then some v else lookupA rest k

/-- Association-list insert with JavaScript `Map.set` semantics: replace the
existing entry in place, otherwise append. -/
def setA {α : Type} : List (String × α) → String → α → List (String × α)
  | [], k, v => [(k, v)]
  | (k2, v2) :: rest, k, v =>
      if k2 == k then (k, v) :: rest else (k2, v2) :: setA rest k v

/-- Association-list delete with JavaScript `Map.delete` semantics (keys are
unique, so filtering the key out removes exactly the one entry). -/
def eraseA {α : Type} (l : List (String × α)) (k : String) : List (String × α) :=
  l.filter (fun p => p.1 != k)

/-- Does `pat` occur at the head of `s`?  (helper for `strIncludes`). -/
def strHasPrefixAt : List Char → List Char → Bool
  | _, [] => true
  | [], _ :: _ => false
  | a :: as, b :: bs => a == b && strHasPrefixAt as bs

/-- Does `pat` occur anywhere inside `s`?  (helper for `strIncludes`). -/
def containsSubL (pat : List Char) : List Char → Bool
  | [] => pat.isEmpty
  | c :: rest => strHasPrefixAt (c :: rest) pat || containsSubL pat rest

/-- JavaScript `String.prototype.includes`. -/
def strIncludes (s pat : String) : Bool :=
  containsSubL pat.data s.data

/-- JavaScript regex `/^\d+$/` — the identity is non-empty and all digits. -/
def allDigits (s : String) : Bool :=
  !s.data.isEmpty && s.data.all Char.isDigit

/-- JavaScript `String.prototype.trim` (ASCII whitespace suffices for the
strings involved). -/
def jsTrim (s : String) : String :=
  String.mk (((s.data.dropWhile Char.isWhitespace).reverse.dropWhile
      Char.isWhitespace).reverse)

/-- JavaScript `String.prototype.startsWith`. -/
def startsWithL (s pat : String) : Bool :=
  strHasPrefixAt s.data pat.data

/-- The terminal Twilio call statuses checked by both polling branches of
`startCallStatusPolling` and by the `/twilio/call-status` webhook:
`['completed', 'busy', 'failed', 'no-answer', 'canceled']`. -/
def terminalStatuses : List String :=
  ["completed", "busy", "failed", "no-answer", "canceled"]

/-- One value of `this.activeCalls` (livekit-agent-manager.js line 64):
the per-room call record.  `agentId` is kept abstract because AI-agent
management is outside the modelled core. -/
structure CallDetails where
  sid : String
  phoneNumber : String
  status : String
  startTime : Nat
  participantId : String
  agentId : Option String
  connected : Bool
  lastStatusUpdate : Nat
deriving DecidableEq, Repr

/-- One `call-status-update` event emitted to socket.io by the
`/twilio/call-status` webhook handler (part_009 lines 367-374). -/
structure CallStatusEmission where
  roomName : String
  callSid : String
  status : String
  active : Bool
deriving DecidableEq, Repr

/-- The mutable state of `LiveKitAgentManager` relevant to the call
lifecycle: `activeCalls` (roomName → call details) and `callStatusPolling`
(key → interval id), plus the interval/emission/carrier-request bookkeeping
described in the header comment. -/
structure ManagerState where
  activeCalls : List (String × CallDetails)
  callStatusPolling : List (String × Nat)
  liveIntervals : List Nat
  nextId : Nat
  emitted : List CallStatusEmission
  carrierEndRequests : List String
deriving DecidableEq, Repr

/-- The empty manager state (fresh `LiveKitAgentManager`). -/
def initialManagerState : ManagerState :=
  { activeCalls := [], callStatusPolling := [], liveIntervals := [],
    nextId := 0, emitted := [], carrierEndRequests := [] }

/-- `markCallEnded(roomName, callSid)` (livekit-agent-manager.js lines
304-334): clear the polling interval stored under `callSid`; then clear and
delete every polling entry whose key contains `roomName` as a substring;
then delete the room's record from `activeCalls`. -/
def markCallEnded (roomName callSid : String) (st : ManagerState) : ManagerState :=
  let st1 :=
    match lookupA st.callStatusPolling callSid with
    | some id =>
        { st with liveIntervals := st.liveIntervals.erase id,
                  callStatusPolling := eraseA st.callStatusPolling callSid }
    | none => st
  let matched := st1.callStatusPolling.filter (fun p => strIncludes p.1 roomName)
  let st2 :=
    { st1 with
      liveIntervals :=
        st1.liveIntervals.filter (fun id => !(matched.any (fun p => p.2 == id))),
      callStatusPolling :=
        st1.callStatusPolling.filter (fun p => !(strIncludes p.1 roomName)) }
  { st2 with activeCalls := eraseA st2.activeCalls roomName }

/-- `startCallStatusPolling(roomName, callSid)` (lines 341-420), up to the
creation of the initial 5000 ms interval: a no-op when a polling entry for
`callSid` already exists, otherwise allocate an interval id and store it
under `callSid`.  The behaviour of each interval tick is `pollBody` /
`extendedPollBody` below. -/
def startCallStatusPolling (_roomName callSid : String) (st : ManagerState) : ManagerState :=
  if (lookupA st.callStatusPolling callSid).isSome then st
  else
    { st with callStatusPolling := setA st.callStatusPolling callSid st.nextId,
              liveIntervals := st.liveIntervals ++ [st.nextId],
              nextId := st.nextId + 1 }

/-- Outcome of one `twilioService.getCallInfo(callSid)` request as seen by
the polling callbacks: a status string, a thrown error with `status === 404`,
or any other thrown error. -/
inductive PollResult
  | ok (status : String)
  | notFound
  | netError
deriving DecidableEq, Repr

/-- One tick of the initial 5000 ms polling interval (lines 351-417).
`intervalId` is the closure's `intervalId`, `pollCount` the value of the
counter after the `pollCount++` at the top of the tick.  On a fetched
status: write it (and `connected` on `in-progress`) into the stored record
if one exists, call `markCallEnded` on a terminal status, and on the 10th
poll clear the initial interval and install the 30000 ms extended interval
under key `callSid ++ "-extended"`.  A thrown 404 calls `markCallEnded`;
any other error only logs. -/
def pollBody (roomName callSid : String) (intervalId pollCount now : Nat)
    (res : PollResult) (st : ManagerState) : ManagerState :=
  match res with
  | .notFound => markCallEnded roomName callSid st
  | .netError => st
  | .ok status =>
      let st1 :=
        match lookupA st.activeCalls roomName with
        | some d =>
            let d1 := { d with status := status, lastStatusUpdate := now }
            let d2 :=
              if status == "in-progress" && !d1.connected then
                { d1 with connected := true }
              else d1
            { st with activeCalls := setA st.activeCalls roomName d2 }
        | none => st
      let st2 :=
        if terminalStatuses.contains status then markCallEnded roomName callSid st1
        else st1
      if pollCount == 10 then
        let st3 := { st2 with liveIntervals := st2.liveIntervals.erase intervalId }
        { st3 with
          callStatusPolling := setA st3.callStatusPolling (callSid ++ "-extended") st3.nextId,
          liveIntervals := st3.liveIntervals ++ [st3.nextId],
          nextId := st3.nextId + 1 }
      else st2

/-- One tick of the 30000 ms extended polling interval (lines 389-405): a
terminal status or a thrown 404 calls `markCallEnded`; a non-terminal
status does not touch the stored record; other errors only log. -/
def extendedPollBody (roomName callSid : String) (res : PollResult)
    (st : ManagerState) : ManagerState :=
  match res with
  | .notFound => markCallEnded roomName callSid st
  | .netError => st
  | .ok status =>
      if terminalStatuses.contains status then markCallEnded roomName callSid st
      else st

/-- Successful result of `twilioService.makeCall` as consumed by
`callPatient`: the carrier-assigned call SID and the carrier's immediate
status. -/
structure MakeCallOk where
  sid : String
  status : String
deriving DecidableEq, Repr

/-- Result of `callPatient` (lines 37-90): the validation error thrown for
an empty phone number, a rethrown carrier error, or the returned call
details object. -/
inductive CallPatientOutcome
  | phoneRequired
  | carrierError (msg : String)
  | ok (callSid roomName status callParticipantId : String)
deriving DecidableEq, Repr

/-- `callPatient(roomName, phoneNumber, options)` (lines 37-90): throw when
the phone number is blank; otherwise place the carrier call (`carrier` is
the outcome `twilioService.makeCall` would produce), unconditionally
`Map.set` the room's record in `activeCalls`, start status polling keyed by
the new SID, and return the call details.  There is no check for an
existing record for `roomName`. -/
def callPatient (roomName phoneNumber : String) (carrier : Except String MakeCallOk)
    (now : Nat) (st : ManagerState) : CallPatientOutcome × ManagerState :=
  if jsTrim phoneNumber == "" then (.phoneRequired, st)
  else
    match carrier with
    | .error e => (.carrierError e, st)
    | .ok info =>
        let record : CallDetails :=
          { sid := info.sid, phoneNumber := phoneNumber, status := info.status,
            startTime := now, participantId := info.sid, agentId := none,
            connected := false, lastStatusUpdate := now }
        let st1 := { st with activeCalls := setA st.activeCalls roomName record }
        let st2 := startCallStatusPolling roomName info.sid st1
        (.ok info.sid roomName info.status info.sid, st2)

/-- Result of `endCall(roomName)` (lines 97-130): the bare boolean `false`
returned when no record exists, or the `{success, callSid, endedByUser}`
object returned otherwise. -/
inductive EndCallOutcome
  | noCall
  | ended (success : Bool) (callSid : String) (endedByUser : Bool)
deriving DecidableEq, Repr

/-- `endCall(roomName)` (lines 97-130): return `false` when `activeCalls`
has no record for the room; otherwise request carrier-side termination
(`carrierThrows` says whether `twilioService.endCall` throws), set the local
`success` flag to `false` on a throw, always call `markCallEnded`, and
return `{success: true, callSid, endedByUser: true}` — the literal `true`
in the return discards the computed `success` flag, exactly as in the
source. -/
def endCall (roomName : String) (carrierThrows : Bool) (st : ManagerState) :
    EndCallOutcome × ManagerState :=
  match lookupA st.activeCalls roomName with
  | none => (.noCall, st)
  | some d =>
      let st1 := { st with carrierEndRequests := st.carrierEndRequests ++ [d.sid] }
      let _success := !carrierThrows
      let st2 := markCallEnded roomName d.sid st1
      (.ended true d.sid true, st2)

/-- The room scan of the `/twilio/call-status` webhook (part_009 lines
355-378): the first room in `activeCalls` whose record's `sid` equals the
webhook's `CallSid`. -/
def findRoomBySid : List (String × CallDetails) → String → Option String
  | [], _ => none
  | (r, d) :: rest, sid => if d.sid == sid then some r else findRoomBySid rest sid

/-- The `/twilio/call-status` webhook handler (part_009 lines 347-389): on
a terminal `CallStatus`, find the room using this `CallSid`, mark the call
ended, and emit one `call-status-update` event to that room; otherwise do
nothing. -/
def webhookCallStatus (callSid callStatus : String) (st : ManagerState) : ManagerState :=
  if terminalStatuses.contains callStatus then
    match findRoomBySid st.activeCalls callSid with
    | some roomName =>
        let st1 := markCallEnded roomName callSid st
        { st1 with emitted := st1.emitted ++
            [{ roomName := roomName, callSid := callSid,
               status := callStatus, active := false }] }
    | none => st
  else st

/-- Characters removed by `normalizePhoneNumber`'s regex
`/[\s\-\(\)]/g` (part_010 line 145): ASCII whitespace, dash and
parentheses. -/
def strippedByNormalize (c : Char) : Bool :=
  c == ' ' || c == '\t' || c == '\n' || c == '\r' || c == '\x0b' || c == '\x0c' ||
  c == '-' || c == '(' || c == ')'

/-- `TwilioService.normalizePhoneNumber` (part_010 lines 143-159): strip
separators, then prepend `+` when the result starts with `1`, `+1` when it
starts with anything else, and leave it alone when it already starts with
`+`.  The function is total — it never rejects an input. -/
def normalizePhoneNumber (phoneNumber : String) : String :=
  let normalized := String.mk (phoneNumber.data.filter (fun c => !strippedByNormalize c))
  if startsWithL normalized "+" then normalized
  else if startsWithL normalized "1" then "+" ++ normalized
  else "+1" ++ normalized

/-- Errors thrown by `TwilioService.makeCall`: the missing-client guard, or
the rethrown carrier error. -/
inductive MakeCallErr
  | clientNotInitialized
  | carrier (msg : String)
deriving DecidableEq, Repr

/-- The object returned by `TwilioService.makeCall` on success (part_010
lines 58-64). -/
structure MakeCallResult where
  sid : String
  toNumber : String
  fromNumber : String
  status : String
deriving DecidableEq, Repr

/-- `TwilioService.makeCall(to, options)` (part_010 lines 29-69): throw when
the client is not initialized; otherwise normalize the destination and issue
exactly one `client.calls.create` request — `attempts n` is the outcome the
carrier would give to the (n+1)-th request, and only `attempts 0` is ever
consulted because the source has no retry.  A carrier error is rethrown
unchanged; on success the SID, normalized number and immediate status are
returned. -/
def makeCall (clientInit : Bool) (fromNumber dest : String)
    (attempts : Nat → Except String MakeCallOk) : Except MakeCallErr MakeCallResult :=
  if !clientInit then .error .clientNotInitialized
  else
    let toNumber := normalizePhoneNumber dest
    match attempts 0 with
    | .error e => .error (.carrier e)
    | .ok c => .ok { sid := c.sid, toNumber := toNumber,
                     fromNumber := fromNumber, status := c.status }

/-- Modelled from the spec (§4.1/§6, for the refinement comparison in C4):
a string is a well-formed E.164 address when it is `+`, a non-zero leading
digit, and at most 14 further digits. -/
def isE164 (s : String) : Bool :=
  match s.data with
  | '+' :: d :: ds =>
      d.isDigit && d != '0' && ds.all Char.isDigit && ds.length + 1 ≤ 15
  | _ => false

/-- The session-bridge state of the Angular LiveKit service (part_005):
`_activeCall` and `_callParticipantId` (a `BehaviorSubject<string | null>`,
modelled as `Option String`). -/
structure SessionState where
  activeCall : Bool
  callParticipantId : Option String
deriving DecidableEq, Repr

/-- The `isSipParticipant` classifier of the `ParticipantConnected` handler
(part_005 lines 221-228): SIP/phone/twilio markers, a `+`, an all-digit
identity, or — when a call participant id is stored and truthy — a SID
match or an identity containing the stored id. -/
def isSipParticipant (identity sid : String) (callPid : Option String) : Bool :=
  strIncludes identity "sip:" ||
  strIncludes identity "phone:" ||
  strIncludes identity "twilio" ||
  strIncludes identity "+" ||
  allDigits identity ||
  (match callPid with
   | some v => v != "" && (sid == v || strIncludes identity v)
   | none => false)

/-- The `RoomEvent.ParticipantConnected` handler (part_005 lines 215-238):
on a positive classification set `_activeCall` to `true` and record the
participant's SID as `_callParticipantId`; otherwise leave both untouched. -/
def onParticipantConnected (identity sid : String) (s : SessionState) : SessionState :=
  if isSipParticipant identity sid s.callParticipantId then
    { activeCall := true, callParticipantId := some sid }
  else s

/-- Modelled from the spec (the documented shapes listed in C9, for the
refinement comparison): carrier-assigned call identifiers (stored call SID /
participant id), telephony-style address patterns (`+` or all digits), or
explicit SIP/phone markers (`sip:`, `phone:`, `twilio`). -/
def specCalledPartyMatch (identity sid : String) (storedId : Option String) : Bool :=
  (match storedId with
   | some v => v != "" && (sid == v || strIncludes identity v)
   | none => false) ||
  (strIncludes identity "+" || allDigits identity) ||
  (strIncludes identity "sip:" || strIncludes identity "phone:" ||
   strIncludes identity "twilio")

/-- The abstract call states of spec §4.2. -/
inductive CallState
  | Requested
  | Ringing
  | Connected
  | Ended
  | Failed
deriving DecidableEq, Repr

/-- Terminal abstract states (spec glossary). -/
def isTerminalState : CallState → Bool
  | .Ended => true
  | .Failed => true
  | _ => false

/-- Reconciler inputs as named by spec §4.2. -/
inductive ReconInput
  | carrier (status : String)
  | participantJoined
  | participantLeft
  | notFound
deriving DecidableEq, Repr

/-- Modelled from the spec (the §4.2 transition table, for the refinement
comparison in C8): does the table allow a step from `src` to `dst` on
`inp`?  Terminal states accept any input as a self no-op. -/
def specStepAllows (src : CallState) (inp : ReconInput) (dst : CallState) : Bool :=
  if isTerminalState src then dst == src
  else
    match inp with
    | .carrier s =>
        (src == .Requested && (s == "queued" || s == "initiated") && dst == .Requested) ||
        (src == .Requested && s == "ringing" && dst == .Ringing) ||
        ((src == .Requested || src == .Ringing) &&
          (s == "answered" || s == "in-progress") && dst == .Connected) ||
        ((src == .Requested || src == .Ringing) &&
          ["failed", "busy", "no-answer", "canceled"].contains s && dst == .Failed) ||
        (src == .Connected &&
          ["completed", "failed", "busy", "no-answer", "canceled"].contains s &&
          dst == .Ended)
    | .participantJoined => (src == .Ringing || src == .Connected) && dst == .Connected
    | .participantLeft => src == .Connected && dst == .Ended
    | .notFound => dst == .Ended

/-- Abstraction from the stored record to the §4.2 state: map the raw
Twilio status vocabulary onto the five abstract states; a removed record is
terminal (rendered `Ended`, the code does not distinguish `Failed` once the
record is deleted). -/
def abstState (st : ManagerState) (room : String) : CallState :=
  match lookupA st.activeCalls room with
  | none => .Ended
  | some d =>
      if d.status == "queued" || d.status == "initiated" then .Requested
      else if d.status == "ringing" then .Ringing
      else if d.status == "answered" || d.status == "in-progress" then .Connected
      else if d.status == "completed" then .Ended
      else if ["failed", "busy", "no-answer", "canceled"].contains d.status then .Failed
      else .Requested

/-- The scheduler state of one call's polling loop: the manager state, the
closure variables of `startCallStatusPolling` (`intervalId`, `pollCount`,
which interval is installed) and the elapsed time in milliseconds. -/
structure PollDriver where
  mgr : ManagerState
  intervalId : Nat
  pollCount : Nat
  extended : Bool
  clock : Nat
deriving DecidableEq, Repr

/-- One timer firing: the extended interval fires 30000 ms after the
previous event and runs `extendedPollBody`; the initial interval fires
5000 ms after the previous event, increments `pollCount`, runs `pollBody`,
and hands over to the extended interval exactly when the 10th poll
completes its body without throwing (a poll whose fetch threw skips the
`pollCount === 10` block, so the hand-over is skipped for good if poll 10
throws). -/
def driverTick (roomName callSid : String) (res : PollResult) (d : PollDriver) : PollDriver :=
  if d.extended then
    { d with clock := d.clock + 30000,
             mgr := extendedPollBody roomName callSid res d.mgr }
  else
    let cnt := d.pollCount + 1
    let stepDown := cnt == 10 && (match res with | .ok _ => true | _ => false)
    { mgr := pollBody roomName callSid d.intervalId cnt (d.clock + 5000) res d.mgr,
      intervalId := d.intervalId, pollCount := cnt,
      extended := stepDown, clock := d.clock + 5000 }

/-- Iterate the polling loop: `pollRun roomName callSid resp n d0` is the
driver state after the first `n` timer firings, the i-th firing observing
carrier outcome `resp i`. -/
def pollRun (roomName callSid : String) (resp : Nat → PollResult) :
    Nat → PollDriver → PollDriver
  | 0, d => d
  | n + 1, d => driverTick roomName callSid (resp n) (pollRun roomName callSid resp n d)

/-- The concrete scenario used by several claims: a fresh manager places a
call for room `room1` to `+15551234567`; the carrier assigns SID `CA1` with
immediate status `queued`. -/
def scenarioState : ManagerState :=
  (callPatient "room1" "+15551234567" (.ok { sid := "CA1", status := "queued" })
      0 initialManagerState).2

/-- The polling driver right after `scenarioState`'s call placement: the
initial interval has id 0 and no poll has fired yet. -/
def scenarioDriver : PollDriver :=
  { mgr := scenarioState, intervalId := 0, pollCount := 0,
    extended := false, clock := 0 }

/-! ### Helper lemmas about the embedded operations -/

theorem lookupA_eraseA_self {α : Type} (l : List (String × α)) (k : String) :
    lookupA (eraseA l k) k = none := by
  induction l with
  | nil => rfl
  | cons p rest ih =>
      obtain ⟨k2, v⟩ := p
      by_cases h : k2 = k
      · simpa [eraseA, List.filter_cons, h] using ih
      · simpa [eraseA, List.filter_cons, h, lookupA] using ih

theorem lookupA_filter_none {α : Type} (l : List (String × α)) (k : String)
    (q : String × α → Bool) (h : lookupA l k = none) :
    lookupA (l.filter q) k = none := by
  induction l with
  | nil => rfl
  | cons p rest ih =>
      obtain ⟨k2, v⟩ := p
      by_cases hk : k2 = k
      · simp [lookupA, hk] at h
      · simp only [lookupA, beq_iff_eq, hk, if_false] at h
        rcases hq : q (k2, v) with _ | _
        · simpa [List.filter_cons, hq] using ih h
        · simpa [List.filter_cons, hq, lookupA, hk] using ih h

theorem eraseA_of_lookupA_none {α : Type} (l : List (String × α)) (k : String)
    (h : lookupA l k = none) : eraseA l k = l := by
  induction l with
  | nil => rfl
  | cons p rest ih =>
      obtain ⟨k2, v⟩ := p
      by_cases hk : k2 = k
      · simp [lookupA, hk] at h
      · simp only [lookupA, beq_iff_eq, hk, if_false] at h
        simp [eraseA, List.filter_cons, hk] at ih ⊢
        exact ih h

theorem lookupA_setA_self {α : Type} (l : List (String × α)) (k : String) (v : α) :
    lookupA (setA l k v) k = some v := by
  induction l with
  | nil => simp [setA, lookupA]
  | cons p rest ih =>
      obtain ⟨k2, v2⟩ := p
      by_cases hk : k2 = k
      · simp [setA, lookupA, hk]
      · simpa [setA, lookupA, hk] using ih

theorem markCallEnded_activeCalls (roomName callSid : String) (st : ManagerState) :
    (markCallEnded roomName callSid st).activeCalls = eraseA st.activeCalls roomName := by
  unfold markCallEnded
  cases h : lookupA st.callStatusPolling callSid <;> rfl

theorem markCallEnded_emitted (roomName callSid : String) (st : ManagerState) :
    (markCallEnded roomName callSid st).emitted = st.emitted := by
  unfold markCallEnded
  cases h : lookupA st.callStatusPolling callSid <;> rfl

theorem markCallEnded_carrierEndRequests (roomName callSid : String) (st : ManagerState) :
    (markCallEnded roomName callSid st).carrierEndRequests = st.carrierEndRequests := by
  unfold markCallEnded
  cases h : lookupA st.callStatusPolling callSid <;> rfl

theorem startCallStatusPolling_activeCalls (roomName callSid : String) (st : ManagerState) :
    (startCallStatusPolling roomName callSid st).activeCalls = st.activeCalls := by
  unfold startCallStatusPolling
  split <;> rfl

theorem lookupA_markCallEnded_self (roomName callSid : String) (st : ManagerState) :
    lookupA (markCallEnded roomName callSid st).activeCalls roomName = none := by
  rw [markCallEnded_activeCalls]
  exact lookupA_eraseA_self _ _

theorem lookupA_markCallEnded_none (roomName callSid room : String) (st : ManagerState)
    (h : lookupA st.activeCalls room = none) :
    lookupA (markCallEnded roomName callSid st).activeCalls room = none := by
  rw [markCallEnded_activeCalls]
  exact lookupA_filter_none _ _ _ h

theorem pollBody_emitted (roomName callSid : String) (iid cnt now : Nat)
    (res : PollResult) (st : ManagerState) :
    (pollBody roomName callSid iid cnt now res st).emitted = st.emitted := by
  unfold pollBody
  cases res with
  | notFound => exact markCallEnded_emitted _ _ _
  | netError => rfl
  | ok status =>
      simp only []
      split
      · split
        · cases h : lookupA st.activeCalls roomName <;>
            simp only [markCallEnded_emitted]
        · cases h : lookupA st.activeCalls roomName <;> rfl
      · split
        · cases h : lookupA st.activeCalls roomName <;>
            simp only [markCallEnded_emitted]
        · cases h : lookupA st.activeCalls roomName <;> rfl

theorem extendedPollBody_emitted (roomName callSid : String)
    (res : PollResult) (st : ManagerState) :
    (extendedPollBody roomName callSid res st).emitted = st.emitted := by
  cases res with
  | notFound => exact markCallEnded_emitted _ _ _
  | netError => rfl
  | ok status =>
      show (if terminalStatuses.contains status = true then
              markCallEnded roomName callSid st else st).emitted = st.emitted
      split
      · exact markCallEnded_emitted _ _ _
      · rfl

theorem endCall_emitted (roomName : String) (carrierThrows : Bool) (st : ManagerState) :
    (endCall roomName carrierThrows st).2.emitted = st.emitted := by
  unfold endCall
  cases h : lookupA st.activeCalls roomName with
  | none => rfl
  | some d => simp only [markCallEnded_emitted]

theorem extendedPollBody_nonterminal (roomName callSid status : String)
    (st : ManagerState) (h : terminalStatuses.contains status = false) :
    extendedPollBody roomName callSid (PollResult.ok status) st = st := by
  show (if terminalStatuses.contains status = true then
          markCallEnded roomName callSid st else st) = st
  rw [h]
  simp

theorem findRoomBySid_eraseA_none (l : List (String × CallDetails))
    (sid room : String)
    (h : ∀ p : String × CallDetails, p ∈ l → p.2.sid = sid → p.1 = room) :
    findRoomBySid (eraseA l room) sid = none := by
  induction l with
  | nil => rfl
  | cons p rest ih =>
      obtain ⟨r, d⟩ := p
      by_cases hr : r = room
      · simp only [eraseA, List.filter_cons] at ih ⊢
        simp only [hr, bne_self_eq_false, if_false]
        exact ih (fun q hq => h q (List.mem_cons_of_mem _ hq))
      · have hne : (r != room) = true := by simp [hr]
        simp only [eraseA, List.filter_cons, hne, if_true] at ih ⊢
        have hd : d.sid ≠ sid := by
          intro hs
          exact hr (h (r, d) (List.mem_cons_self _ _) hs)
        simp only [findRoomBySid, beq_iff_eq, hd, if_false]
        exact ih (fun q hq => h q (List.mem_cons_of_mem _ hq))

/-! ### Claim C1 — double request -/

/-- C1 counterexample: room `room1` already has a non-terminal call record
(SID `CA1`), yet a second `callPatient` for the same room succeeds — it
returns the new call details instead of failing with `CallAlreadyActive`,
and it overwrites the stored record with the new SID `CA2`. -/
theorem c1_counterexample :
    (lookupA scenarioState.activeCalls "room1").isSome = true ∧
    (callPatient "room1" "+15550002222" (Except.ok { sid := "CA2", status := "queued" })
        7 scenarioState).1 =
      CallPatientOutcome.ok "CA2" "room1" "queued" "CA2" ∧
    lookupA (callPatient "room1" "+15550002222"
        (Except.ok { sid := "CA2", status := "queued" }) 7 scenarioState).2.activeCalls
        "room1" =
      some { sid := "CA2", phoneNumber := "+15550002222", status := "queued",
             startTime := 7, participantId := "CA2", agentId := none,
             connected := false, lastStatusUpdate := 7 } := by decide

/-- C1 (amended): `callPatient` performs no duplicate-call check.  For every
store in which the room already has a call record, a new request with a
non-blank phone number and a successful carrier placement succeeds and
replaces the existing record with a fresh one carrying the new SID. -/
theorem c1_request_overwrites_existing (st : ManagerState)
    (roomName phoneNumber : String) (info : MakeCallOk) (old : CallDetails) (now : Nat)
    (hphone : (jsTrim phoneNumber == "") = false)
    (_hold : lookupA st.activeCalls roomName = some old) :
    (callPatient roomName phoneNumber (Except.ok info) now st).1 =
      CallPatientOutcome.ok info.sid roomName info.status info.sid ∧
    lookupA (callPatient roomName phoneNumber (Except.ok info) now st).2.activeCalls
        roomName =
      some { sid := info.sid, phoneNumber := phoneNumber, status := info.status,
             startTime := now, participantId := info.sid, agentId := none,
             connected := false, lastStatusUpdate := now } := by
  unfold callPatient
  simp only [hphone, Bool.false_eq_true, if_false]
  refine ⟨trivial, ?_⟩
  rw [startCallStatusPolling_activeCalls]
  exact lookupA_setA_self _ _ _

/-- C1 witness: the amended statement applied to the concrete scenario. -/
theorem c1_request_overwrites_existing_witness :
    (callPatient "room1" "+15550002222" (Except.ok { sid := "CA2", status := "queued" })
        7 scenarioState).1 =
      CallPatientOutcome.ok "CA2" "room1" "queued" "CA2" ∧
    lookupA (callPatient "room1" "+15550002222"
        (Except.ok { sid := "CA2", status := "queued" }) 7 scenarioState).2.activeCalls
        "room1" =
      some { sid := "CA2", phoneNumber := "+15550002222", status := "queued",
             startTime := 7, participantId := "CA2", agentId := none,
             connected := false, lastStatusUpdate := 7 } :=
  c1_request_overwrites_existing scenarioState "room1" "+15550002222"
    { sid := "CA2", status := "queued" }
    { sid := "CA1", phoneNumber := "+15551234567", status := "queued", startTime := 0,
      participantId := "CA1", agentId := none, connected := false, lastStatusUpdate := 0 }
    7 (by decide) (by decide)

/-! ### Claims C2 and C6 — the `-extended` polling timer -/

/-- The manager state after the scenario call has been polled ten times with
carrier status `ringing`: the 10th poll installed the extended 30000 ms
interval (id 1) under key `CA1-extended` and cleared the initial interval. -/
def afterTenRingingPolls : ManagerState :=
  (pollRun "room1" "CA1" (fun _ => PollResult.ok "ringing") 10 scenarioDriver).mgr

/-- C2: evaluation at the failing input.  After ten polls the extended
timer (interval id 1, key `CA1-extended`) is live; `markCallEnded` —
reconciling the call to its terminal state — removes the call record but
leaves the `CA1-extended` entry and its interval running, because the
cleanup only clears keys containing the room name and the extended key is
derived from the call SID: the timer outlives the `CallRecord`. -/
theorem c2_extended_timer_outlives_record :
    lookupA afterTenRingingPolls.callStatusPolling "CA1-extended" = some 1 ∧
    afterTenRingingPolls.liveIntervals = [1] ∧
    lookupA (markCallEnded "room1" "CA1" afterTenRingingPolls).activeCalls "room1" =
      none ∧
    lookupA (markCallEnded "room1" "CA1" afterTenRingingPolls).callStatusPolling
      "CA1-extended" = some 1 ∧
    (markCallEnded "room1" "CA1" afterTenRingingPolls).liveIntervals = [1] := by decide

/-- C6: evaluation at the failing input.  Operator `endCall` after the 10th
poll: the carrier-side termination is requested and the local record is
forced out even though the carrier call throws, but the polling scheduler is
not fully stopped — the extended interval (id 1) stays live under
`CA1-extended`, so status fetches for `CA1` keep being issued. -/
theorem c6_endCall_carrier_throw_keeps_extended_timer :
    (endCall "room1" true afterTenRingingPolls).1 =
      EndCallOutcome.ended true "CA1" true ∧
    (endCall "room1" true afterTenRingingPolls).2.carrierEndRequests = ["CA1"] ∧
    lookupA (endCall "room1" true afterTenRingingPolls).2.activeCalls "room1" = none ∧
    lookupA (endCall "room1" true afterTenRingingPolls).2.callStatusPolling
      "CA1-extended" = some 1 ∧
    (endCall "room1" true afterTenRingingPolls).2.liveIntervals = [1] := by decide

/-! ### Claim C3 — polling cadence and the absence of a hard ceiling -/

/-- A carrier that answers every poll with the non-terminal status
`ringing`. -/
def alwaysRinging : Nat → PollResult := fun _ => PollResult.ok "ringing"

/-- The polling driver of the scenario call after `n` timer firings, every
poll observing `ringing`. -/
def c3run (n : Nat) : PollDriver :=
  pollRun "room1" "CA1" alwaysRinging n scenarioDriver

theorem driverTick_of_extended (roomName callSid : String) (res : PollResult)
    (d : PollDriver) (h : d.extended = true) :
    driverTick roomName callSid res d =
      { d with clock := d.clock + 30000,
               mgr := extendedPollBody roomName callSid res d.mgr } := by
  unfold driverTick
  rw [h]
  simp

theorem c3run_stable (k : Nat) :
    (c3run (10 + k)).mgr = (c3run 10).mgr ∧
    (c3run (10 + k)).extended = true ∧
    (c3run (10 + k)).clock = 50000 + 30000 * k := by
  induction k with
  | zero => exact ⟨rfl, by decide, by decide⟩
  | succ k ih =>
      rcases ih with ⟨hm, he, hc⟩
      have hstep : c3run (10 + (k + 1)) =
          driverTick "room1" "CA1" (alwaysRinging (10 + k)) (c3run (10 + k)) := rfl
      have hring : terminalStatuses.contains "ringing" = false := by decide
      rw [hstep, driverTick_of_extended _ _ _ _ he]
      refine ⟨?_, he, ?_⟩
      · show extendedPollBody "room1" "CA1" (PollResult.ok "ringing") (c3run (10 + k)).mgr =
          (c3run 10).mgr
        rw [extendedPollBody_nonterminal _ _ _ _ hring]
        exact hm
      · show (c3run (10 + k)).clock + 30000 = 50000 + 30000 * (k + 1)
        rw [hc]
        ring

/-- C3 counterexample: after 1000 polls (about 8.3 hours of elapsed model
time) in which the carrier never reports a terminal status, the call record
still exists with status `ringing`, the extended polling interval is still
live, and no transition to a failed state ever happened — there is no hard
ceiling and no `PollingTimeout`: the call polls forever. -/
theorem c3_counterexample :
    (c3run 1000).clock = 29750000 ∧
    lookupA (c3run 1000).mgr.activeCalls "room1" =
      some { sid := "CA1", phoneNumber := "+15551234567", status := "ringing",
             startTime := 0, participantId := "CA1", agentId := none,
             connected := false, lastStatusUpdate := 50000 } ∧
    (c3run 1000).mgr.liveIntervals = [1] ∧
    lookupA (c3run 1000).mgr.callStatusPolling "CA1-extended" = some 1 := by
  have h : (1000 : Nat) = 10 + 990 := by norm_num
  rw [h]
  obtain ⟨hm, -, hc⟩ := c3run_stable 990
  rw [hm, hc]
  refine ⟨by norm_num, by decide, by decide, by decide⟩

/-- C3 (amended): with a carrier that never reports a terminal status, the
scenario call is polled at the fast 5000 ms cadence for the first 10 polls,
hands over to the 30000 ms extended cadence from the 10th poll on, and
keeps polling indefinitely: at every step the call record still exists, its
status is never `failed`, and a polling interval is still live — there is
no hard ceiling and no forced `Failed`/`PollingTimeout` transition. -/
theorem c3_cadence_and_no_ceiling (n : Nat) :
    (n ≤ 10 → (c3run n).clock = 5000 * n ∧ (c3run n).extended = (n == 10)) ∧
    (10 ≤ n → (c3run n).clock = 50000 + 30000 * (n - 10) ∧
      (c3run n).extended = true) ∧
    (lookupA (c3run n).mgr.activeCalls "room1").isSome = true ∧
    ((lookupA (c3run n).mgr.activeCalls "room1").map CallDetails.status ≠
      some "failed") ∧
    (c3run n).mgr.liveIntervals ≠ [] := by
  refine ⟨?_, ?_, ?_⟩
  · intro h
    interval_cases n <;> exact (by decide)
  · intro h
    obtain ⟨k, rfl⟩ := Nat.exists_eq_add_of_le h
    obtain ⟨hm, he, hc⟩ := c3run_stable k
    refine ⟨?_, he⟩
    rw [hc]
    congr 1
    omega
  · rcases le_or_lt n 10 with h | h
    · interval_cases n <;> exact (by decide)
    · obtain ⟨k, rfl⟩ := Nat.exists_eq_add_of_le (Nat.le_of_lt h)
      obtain ⟨hm, -, -⟩ := c3run_stable k
      rw [hm]
      exact (by decide)

/-- C3 witness: the amended statement applied at polls 5 and 12. -/
theorem c3_cadence_witness :
    (c3run 5).clock = 5000 * 5 ∧ (c3run 12).clock = 50000 + 30000 * (12 - 10) ∧
    (lookupA (c3run 12).mgr.activeCalls "room1").isSome = true :=
  ⟨((c3_cadence_and_no_ceiling 5).1 (by norm_num)).1,
   ((c3_cadence_and_no_ceiling 12).2.1 (by norm_num)).1,
   (c3_cadence_and_no_ceiling 12).2.2.1⟩

/-! ### Claim C4 — `makeCall` error behaviour -/

/-- C4 counterexample: the destination `abc` cannot be normalized to a
well-formed E.164 address (`normalizePhoneNumber` yields `+1abc`), yet
`makeCall` does not fail with any `InvalidDestination`-style error — it
dials `+1abc` and succeeds; and when the single carrier request fails, the
raw carrier error is rethrown immediately even though a second request
would have succeeded — there is no internal retry and no
`CarrierUnavailable` conversion. -/
theorem c4_counterexample :
    isE164 (normalizePhoneNumber "abc") = false ∧
    makeCall true "+15550001111" "abc"
        (fun _ => Except.ok { sid := "CA9", status := "queued" }) =
      Except.ok { sid := "CA9", toNumber := "+1abc",
                  fromNumber := "+15550001111", status := "queued" } ∧
    makeCall true "+15550001111" "+15551234567"
        (fun n => if n == 0 then Except.error "socket hang up"
                  else Except.ok { sid := "CA9", status := "queued" }) =
      Except.error (MakeCallErr.carrier "socket hang up") := by
  refine ⟨by decide, rfl, rfl⟩

/-- C4 (amended): `makeCall` never rejects a destination —
`normalizePhoneNumber` is total and the result is dialed as-is; the
placement issues exactly one carrier request (the outcome depends only on
`attempts 0`), a carrier error is rethrown unchanged (no retry, no
`CarrierUnavailable`), and on success the carrier SID and immediate status
are returned together with the normalized destination. -/
theorem c4_makeCall_single_attempt (dest fromNumber : String)
    (attempts attempts2 : Nat → Except String MakeCallOk)
    (info : MakeCallOk) (msg : String)
    (hsame : attempts 0 = attempts2 0) :
    makeCall true fromNumber dest attempts = makeCall true fromNumber dest attempts2 ∧
    (attempts 0 = Except.error msg →
      makeCall true fromNumber dest attempts = Except.error (MakeCallErr.carrier msg)) ∧
    (attempts 0 = Except.ok info →
      makeCall true fromNumber dest attempts =
        Except.ok { sid := info.sid, toNumber := normalizePhoneNumber dest,
                    fromNumber := fromNumber, status := info.status }) := by
  refine ⟨?_, ?_, ?_⟩
  · unfold makeCall
    rw [hsame]
  · intro h
    unfold makeCall
    rw [h]
    rfl
  · intro h
    unfold makeCall
    rw [h]
    rfl

/-- C4 witness: the amended statement applied to a concrete carrier
behaviour. -/
theorem c4_makeCall_single_attempt_witness :
    makeCall true "+15550001111" "555 123-4567"
        (fun _ => Except.ok { sid := "CA7", status := "initiated" }) =
      Except.ok { sid := "CA7", toNumber := normalizePhoneNumber "555 123-4567",
                  fromNumber := "+15550001111", status := "initiated" } :=
  (c4_makeCall_single_attempt "555 123-4567" "+15550001111"
      (fun _ => Except.ok { sid := "CA7", status := "initiated" })
      (fun _ => Except.ok { sid := "CA7", status := "initiated" })
      { sid := "CA7", status := "initiated" } "unused" rfl).2.2 rfl

/-! ### Claim C5 — `NotFound` during polling -/

/-- C5: a 404 (`NotFound`) from the status fetch makes the polling tick —
initial or extended — remove the room's call record in that same tick (the
call is thereafter treated as ended), for every prior state; and when the
call was already terminal (no record stored), the record store is left
exactly as it was: the 404 handling is a no-op on `activeCalls`. -/
theorem c5_notFound_ends_call (st : ManagerState) (roomName callSid : String)
    (iid cnt now : Nat) :
    lookupA (pollBody roomName callSid iid cnt now PollResult.notFound st).activeCalls
      roomName = none ∧
    lookupA (extendedPollBody roomName callSid PollResult.notFound st).activeCalls
      roomName = none ∧
    (lookupA st.activeCalls roomName = none →
      (pollBody roomName callSid iid cnt now PollResult.notFound st).activeCalls =
        st.activeCalls ∧
      (extendedPollBody roomName callSid PollResult.notFound st).activeCalls =
        st.activeCalls) := by
  refine ⟨?_, ?_, ?_⟩
  · exact lookupA_markCallEnded_self _ _ _
  · exact lookupA_markCallEnded_self _ _ _
  · intro h
    constructor
    · show (markCallEnded roomName callSid st).activeCalls = st.activeCalls
      rw [markCallEnded_activeCalls]
      exact eraseA_of_lookupA_none _ _ h
    · show (markCallEnded roomName callSid st).activeCalls = st.activeCalls
      rw [markCallEnded_activeCalls]
      exact eraseA_of_lookupA_none _ _ h

/-- C5 witness: the statement applied to the concrete scenario state and to
the empty store. -/
theorem c5_notFound_ends_call_witness :
    lookupA (pollBody "room1" "CA1" 0 3 15000 PollResult.notFound
      scenarioState).activeCalls "room1" = none ∧
    (pollBody "room1" "CA1" 0 3 15000 PollResult.notFound
      initialManagerState).activeCalls = initialManagerState.activeCalls :=
  ⟨(c5_notFound_ends_call scenarioState "room1" "CA1" 0 3 15000).1,
   ((c5_notFound_ends_call initialManagerState "room1" "CA1" 0 3 15000).2.2 rfl).1⟩

/-! ### More helper lemmas (store preservation, webhook shape) -/

theorem lookupA_setA_ne {α : Type} (l : List (String × α)) (k k2 : String) (v : α)
    (h : k2 ≠ k) : lookupA (setA l k2 v) k = lookupA l k := by
  induction l with
  | nil => simp [setA, lookupA, h]
  | cons p rest ih =>
      obtain ⟨k3, v3⟩ := p
      by_cases h3 : k3 = k2
      · simp [setA, lookupA, h3, h]
      · simp only [setA, beq_iff_eq, h3, if_false, lookupA]
        split
        · rfl
        · exact ih

theorem pollBody_preserves_none (roomName callSid room : String) (iid cnt now : Nat)
    (res : PollResult) (st : ManagerState)
    (h : lookupA st.activeCalls room = none) :
    lookupA (pollBody roomName callSid iid cnt now res st).activeCalls room = none := by
  cases res with
  | notFound => exact lookupA_markCallEnded_none _ _ _ _ h
  | netError => exact h
  | ok status =>
      unfold pollBody
      rcases hl : lookupA st.activeCalls roomName with _ | d
      · simp only [hl]
        split
        · split
          · exact lookupA_markCallEnded_none _ _ _ _ h
          · exact h
        · split
          · exact lookupA_markCallEnded_none _ _ _ _ h
          · exact h
      · simp only [hl]
        have hr : roomName ≠ room := by
          intro he
          rw [he, h] at hl
          exact Option.noConfusion hl
        have hset : ∀ d2 : CallDetails,
            lookupA (setA st.activeCalls roomName d2) room = none := by
          intro d2
          rw [lookupA_setA_ne _ _ _ _ hr]
          exact h
        split
        · split
          · exact lookupA_markCallEnded_none _ _ _ _ (hset _)
          · exact hset _
        · split
          · exact lookupA_markCallEnded_none _ _ _ _ (hset _)
          · exact hset _

theorem extendedPollBody_preserves_none (roomName callSid room : String)
    (res : PollResult) (st : ManagerState)
    (h : lookupA st.activeCalls room = none) :
    lookupA (extendedPollBody roomName callSid res st).activeCalls room = none := by
  cases res with
  | notFound => exact lookupA_markCallEnded_none _ _ _ _ h
  | netError => exact h
  | ok status =>
      show lookupA (if terminalStatuses.contains status = true then
          markCallEnded roomName callSid st else st).activeCalls room = none
      split
      · exact lookupA_markCallEnded_none _ _ _ _ h
      · exact h

theorem webhookCallStatus_preserves_none (callSid callStatus room : String)
    (st : ManagerState) (h : lookupA st.activeCalls room = none) :
    lookupA (webhookCallStatus callSid callStatus st).activeCalls room = none := by
  unfold webhookCallStatus
  split
  · rcases hf : findRoomBySid st.activeCalls callSid with _ | r
    · simp only [hf]
      exact h
    · simp only [hf]
      show lookupA (markCallEnded r callSid st).activeCalls room = none
      exact lookupA_markCallEnded_none _ _ _ _ h
  · exact h

theorem webhookCallStatus_found (callSid callStatus roomName : String)
    (st : ManagerState)
    (hterm : terminalStatuses.contains callStatus = true)
    (hfind : findRoomBySid st.activeCalls callSid = some roomName) :
    webhookCallStatus callSid callStatus st =
      { markCallEnded roomName callSid st with
        emitted := (markCallEnded roomName callSid st).emitted ++
          [{ roomName := roomName, callSid := callSid,
             status := callStatus, active := false }] } := by
  unfold webhookCallStatus
  rw [hterm, hfind]
  simp

theorem webhookCallStatus_no_room (callSid callStatus : String) (st : ManagerState)
    (hfind : findRoomBySid st.activeCalls callSid = none) :
    webhookCallStatus callSid callStatus st = st := by
  unfold webhookCallStatus
  split
  · rw [hfind]
  · rfl

/-! ### Claim C7 — lifecycle notification -/

/-- C7 counterexample: the scenario call reaches its terminal state through
a poll (`completed` on the first poll): the record is removed, yet no
lifecycle notification is ever emitted — the `exactly once, regardless of
which input stream detected it` claim fails on the polling stream. -/
theorem c7_counterexample :
    lookupA (pollBody "room1" "CA1" 0 1 5000 (PollResult.ok "completed")
      scenarioState).activeCalls "room1" = none ∧
    (pollBody "room1" "CA1" 0 1 5000 (PollResult.ok "completed")
      scenarioState).emitted = [] := by decide

/-- C7 (amended): the `call-status-update` lifecycle notification is emitted
only by the webhook path, and at most once per call: polling ticks (initial
and extended) and operator `endCall` never emit; a terminal webhook whose
SID matches a stored record emits exactly one notification and removes the
record, so an identical second webhook emits nothing further. -/
theorem c7_lifecycle_emission (st : ManagerState)
    (roomName callSid callStatus room2 sid2 : String) (iid cnt now : Nat)
    (res : PollResult) (b : Bool)
    (hterm : terminalStatuses.contains callStatus = true)
    (hfind : findRoomBySid st.activeCalls callSid = some roomName)
    (huniq : ∀ p : String × CallDetails, p ∈ st.activeCalls →
        p.2.sid = callSid → p.1 = roomName) :
    (pollBody room2 sid2 iid cnt now res st).emitted = st.emitted ∧
    (extendedPollBody room2 sid2 res st).emitted = st.emitted ∧
    (endCall room2 b st).2.emitted = st.emitted ∧
    (webhookCallStatus callSid callStatus st).emitted =
      st.emitted ++ [{ roomName := roomName, callSid := callSid,
                       status := callStatus, active := false }] ∧
    (webhookCallStatus callSid callStatus
        (webhookCallStatus callSid callStatus st)).emitted =
      st.emitted ++ [{ roomName := roomName, callSid := callSid,
                       status := callStatus, active := false }] := by
  have hfound := webhookCallStatus_found callSid callStatus roomName st hterm hfind
  refine ⟨pollBody_emitted _ _ _ _ _ _ _, extendedPollBody_emitted _ _ _ _,
    endCall_emitted _ _ _, ?_, ?_⟩
  · rw [hfound]
    show (markCallEnded roomName callSid st).emitted ++ _ = st.emitted ++ _
    rw [markCallEnded_emitted]
  · have hact : (webhookCallStatus callSid callStatus st).activeCalls =
        eraseA st.activeCalls roomName := by
      rw [hfound]
      show (markCallEnded roomName callSid st).activeCalls = _
      exact markCallEnded_activeCalls _ _ _
    have hnone : findRoomBySid
        (webhookCallStatus callSid callStatus st).activeCalls callSid = none := by
      rw [hact]
      exact findRoomBySid_eraseA_none _ _ _ huniq
    rw [webhookCallStatus_no_room _ _ _ hnone, hfound]
    show (markCallEnded roomName callSid st).emitted ++ _ = st.emitted ++ _
    rw [markCallEnded_emitted]

/-- C7 witness: the amended statement applied to the concrete scenario. -/
theorem c7_lifecycle_emission_witness :
    (webhookCallStatus "CA1" "completed" scenarioState).emitted =
      scenarioState.emitted ++
        [{ roomName := "room1", callSid := "CA1",
           status := "completed", active := false }] ∧
    (webhookCallStatus "CA1" "completed"
        (webhookCallStatus "CA1" "completed" scenarioState)).emitted =
      scenarioState.emitted ++
        [{ roomName := "room1", callSid := "CA1",
           status := "completed", active := false }] := by
  have huniq : ∀ p : String × CallDetails, p ∈ scenarioState.activeCalls →
      p.2.sid = "CA1" → p.1 = "room1" := by
    intro p hp _
    have hl : scenarioState.activeCalls =
        [("room1", { sid := "CA1", phoneNumber := "+15551234567", status := "queued",
                     startTime := 0, participantId := "CA1", agentId := none,
                     connected := false, lastStatusUpdate := 0 })] := by decide
    rw [hl] at hp
    rw [List.mem_singleton.mp hp]
  have h := c7_lifecycle_emission scenarioState "room1" "CA1" "completed" "r2" "s2"
    0 0 0 PollResult.netError true (by decide) (by decide) huniq
  exact ⟨h.2.2.2.1, h.2.2.2.2⟩

/-! ### Claim C8 — transition discipline -/

/-- A carrier whose first poll reports `in-progress` and whose second poll
reports the stale status `ringing`. -/
def inProgressThenRinging : Nat → PollResult :=
  fun n => PollResult.ok (if n == 0 then "in-progress" else "ringing")

/-- C8 counterexample: the poll stream `in-progress` then `ringing` drives
the scenario record from abstract state `Connected` back to `Ringing` —
the stored status follows the carrier verbatim with no guard — and the
§4.2 table allows no `Connected → Ringing` transition on a carrier
`ringing` input, so not every reached state is reachable via the table. -/
theorem c8_counterexample :
    abstState (pollRun "room1" "CA1" inProgressThenRinging 1 scenarioDriver).mgr
      "room1" = CallState.Connected ∧
    abstState (pollRun "room1" "CA1" inProgressThenRinging 2 scenarioDriver).mgr
      "room1" = CallState.Ringing ∧
    specStepAllows CallState.Connected (ReconInput.carrier "ringing")
      CallState.Ringing = false := by decide

/-- C8 (amended): the terminal half of the claim holds — once a call's
record has been removed (the code's terminal state), no subsequent input on
any stream re-creates or changes it: polling ticks, extended polling ticks
and webhooks leave the room absent, and operator `endCall` is a pure no-op
returning `false`.  (The non-terminal half fails, see the counterexample:
stored statuses follow the carrier verbatim, so transitions outside the
§4.2 table occur.) -/
theorem c8_terminal_absorbing (st : ManagerState)
    (room roomName callSid sid2 status2 : String) (iid cnt now : Nat)
    (res : PollResult) (b : Bool)
    (h : lookupA st.activeCalls room = none) :
    lookupA (pollBody roomName callSid iid cnt now res st).activeCalls room = none ∧
    lookupA (extendedPollBody roomName callSid res st).activeCalls room = none ∧
    lookupA (webhookCallStatus sid2 status2 st).activeCalls room = none ∧
    endCall room b st = (EndCallOutcome.noCall, st) := by
  refine ⟨pollBody_preserves_none _ _ _ _ _ _ _ _ h,
    extendedPollBody_preserves_none _ _ _ _ _ h,
    webhookCallStatus_preserves_none _ _ _ _ h, ?_⟩
  unfold endCall
  rw [h]

/-- C8 witness: the amended statement applied to a store with no record for
`room9`. -/
theorem c8_terminal_absorbing_witness :
    lookupA (pollBody "room9" "CA9" 0 1 5000 (PollResult.ok "ringing")
      scenarioState).activeCalls "room9" = none ∧
    lookupA (webhookCallStatus "CA9" "completed" scenarioState).activeCalls
      "room9" = none ∧
    endCall "room9" true scenarioState = (EndCallOutcome.noCall, scenarioState) := by
  have h := c8_terminal_absorbing scenarioState "room9" "room9" "CA9" "CA9"
    "completed" 0 1 5000 (PollResult.ok "ringing") true (by decide)
  exact ⟨h.1, h.2.2.1, h.2.2.2⟩

/-! ### Claim C9 — session-bridge participant classification -/

/-- C9: for every participant-join event, the source's `isSipParticipant`
classifier agrees exactly with the documented shapes (carrier-assigned call
identifiers via the stored call participant id, telephony-style address
patterns as a `+` or an all-digit identity, and explicit `sip:` / `phone:`
/ `twilio` markers), and on a positive classification the handler marks the
call active and records the participant's SID as the call participant. -/
theorem c9_classifier_matches_documented_shapes (identity sid : String)
    (s : SessionState) :
    isSipParticipant identity sid s.callParticipantId =
      specCalledPartyMatch identity sid s.callParticipantId ∧
    (isSipParticipant identity sid s.callParticipantId = true →
      onParticipantConnected identity sid s =
        { activeCall := true, callParticipantId := some sid }) := by
  constructor
  · unfold isSipParticipant specCalledPartyMatch
    cases hv : s.callParticipantId with
    | none => simp [Bool.or_comm, Bool.or_left_comm, Bool.or_assoc]
    | some v => simp [Bool.or_comm, Bool.or_left_comm, Bool.or_assoc]
  · intro h
    unfold onParticipantConnected
    rw [h]
    simp

/-- C9 witness: a SIP-marked participant is classified positively and the
session state is updated as documented. -/
theorem c9_classifier_witness :
    isSipParticipant "sip:+15551234567@trunk" "PA1" none =
      specCalledPartyMatch "sip:+15551234567@trunk" "PA1" none ∧
    onParticipantConnected "sip:+15551234567@trunk" "PA1"
        { activeCall := false, callParticipantId := none } =
      { activeCall := true, callParticipantId := some "PA1" } :=
  ⟨(c9_classifier_matches_documented_shapes "sip:+15551234567@trunk" "PA1"
      { activeCall := false, callParticipantId := none }).1,
   (c9_classifier_matches_documented_shapes "sip:+15551234567@trunk" "PA1"
      { activeCall := false, callParticipantId := none }).2 (by decide)⟩

/-! ### Claim C10 — `endCall` return value -/

/-- C10: for every store, `endCall` on a room holding a call record returns
the object `{success: true, callSid, endedByUser: true}` — the literal
`true` even when the carrier-side end throws (`carrierThrows` arbitrary;
the internally computed failure flag is discarded) — after requesting
carrier-side termination exactly once; on a room with no record it returns
the bare boolean `false` and performs no carrier request and no state
change at all. -/
theorem c10_endCall_result (st : ManagerState) (roomName : String)
    (carrierThrows : Bool) :
    (∀ d : CallDetails, lookupA st.activeCalls roomName = some d →
      (endCall roomName carrierThrows st).1 = EndCallOutcome.ended true d.sid true ∧
      (endCall roomName carrierThrows st).2.carrierEndRequests =
        st.carrierEndRequests ++ [d.sid]) ∧
    (lookupA st.activeCalls roomName = none →
      endCall roomName carrierThrows st = (EndCallOutcome.noCall, st)) := by
  constructor
  · intro d hd
    unfold endCall
    rw [hd]
    refine ⟨rfl, ?_⟩
    show (markCallEnded roomName d.sid
        { st with carrierEndRequests := st.carrierEndRequests ++ [d.sid] }).carrierEndRequests =
      st.carrierEndRequests ++ [d.sid]
    rw [markCallEnded_carrierEndRequests]
  · intro h
    unfold endCall
    rw [h]

/-- C10 witness: both branches applied to concrete stores, with the carrier
end throwing. -/
theorem c10_endCall_result_witness :
    (endCall "room1" true scenarioState).1 = EndCallOutcome.ended true "CA1" true ∧
    endCall "room1" true initialManagerState =
      (EndCallOutcome.noCall, initialManagerState) :=
  ⟨((c10_endCall_result scenarioState "room1" true).1
      { sid := "CA1", phoneNumber := "+15551234567", status := "queued",
        startTime := 0, participantId := "CA1", agentId := none,
        connected := false, lastStatusUpdate := 0 } (by decide)).1,
   (c10_endCall_result initialManagerState "room1" true).2 rfl⟩
